import Mathlib

/-!
Verification of the route/navigation model of the Refract documentation site.

The repository ships two generated route tables
(`refract-docs/.docusaurus/routes.js` and an unnamed `routes.js` variant),
a sidebar configuration (`refract-docs/sidebars.js`), and two site
configuration variants (`docusaurus.config.js` files).  This file embeds
those static data structures and the route-resolution / sidebar-walking
behaviour described in the design document, and proves the stated
properties about them.

A route record is an object literal with a `path` key, a `component` key
of the form `ComponentCreator(path, hash)` (the hash argument is absent
exactly for the wildcard record, hence `Option`), an optional
`exact: true` key (`exactFlag` records its presence), an optional
`sidebar` key, and an optional `routes` array of child records
(`hasRoutes` records whether the key is present; `children` is its
value, empty when the key is absent).  The children are kept in a
mutually defined list type so that all traversals are structurally
recursive.
-/

mutual

inductive RouteNode : Type where
  | mk (path : String) (hash : Option String) (exactFlag : Bool)
       (sidebar : Option String) (hasRoutes : Bool) (children : RouteList)

inductive RouteList : Type where
  | nil : RouteList
  | cons (head : RouteNode) (tail : RouteList) : RouteList

end

def RouteNode.path : RouteNode → String
  | .mk p _ _ _ _ _ => p

def RouteNode.hash : RouteNode → Option String
  | .mk _ h _ _ _ _ => h

def RouteNode.exactFlag : RouteNode → Bool
  | .mk _ _ e _ _ _ => e

def RouteNode.sidebar : RouteNode → Option String
  | .mk _ _ _ s _ _ => s

def RouteNode.hasRoutes : RouteNode → Bool
  | .mk _ _ _ _ r _ => r

def RouteNode.children : RouteNode → RouteList
  | .mk _ _ _ _ _ c => c

/-- Package an ordinary list of records as a `RouteList`. -/
def RouteList.ofList : List RouteNode → RouteList
  | [] => .nil
  | r :: rs => .cons r (RouteList.ofList rs)

/-- Forget the packaging again. -/
def RouteList.toList : RouteList → List RouteNode
  | .nil => []
  | .cons r rs => r :: RouteList.toList rs

def RouteList.append : RouteList → RouteList → RouteList
  | .nil, l => l
  | .cons r rs, l => .cons r (RouteList.append rs l)

/-- A leaf record `{ path, component: ComponentCreator(path, h), exact: true }`. -/
def leafR (p h : String) : RouteNode := .mk p (some h) true none false .nil

/-- A leaf record additionally carrying `sidebar: "tutorialSidebar"`. -/
def leafS (p h sb : String) : RouteNode := .mk p (some h) true (some sb) false .nil

/-- An intermediate record `{ path, component: ComponentCreator(path, h), routes: [...] }`. -/
def branchR (p h : String) (cs : List RouteNode) : RouteNode :=
  .mk p (some h) false none true (RouteList.ofList cs)

/-- The wildcard record `{ path: '*', component: ComponentCreator('*') }`. -/
def wildcardR : RouteNode := .mk "*" none false none false .nil

/-- Innermost children of the `/docs` wrapper chain of
`refract-docs/.docusaurus/routes.js` (lines 87-242), in source order. -/
def mainDocsLeaves : List RouteNode := [
  leafR "/docs/advanced/performance" "cef",
  leafR "/docs/advanced/testing" "7ad",
  leafR "/docs/api" "a3f",
  leafS "/docs/api/createApp" "090" "tutorialSidebar",
  leafS "/docs/api/createComponent" "e73" "tutorialSidebar",
  leafS "/docs/api/createOptic" "ae2" "tutorialSidebar",
  leafS "/docs/api/overview" "211" "tutorialSidebar",
  leafS "/docs/api/useEffect" "a6d" "tutorialSidebar",
  leafS "/docs/api/useFlash" "3ce" "tutorialSidebar",
  leafS "/docs/api/useLens" "5c2" "tutorialSidebar",
  leafS "/docs/api/useOptic" "6b0" "tutorialSidebar",
  leafS "/docs/api/useRefraction" "a76" "tutorialSidebar",
  leafS "/docs/concepts/components" "749" "tutorialSidebar",
  leafS "/docs/concepts/effects" "4d4" "tutorialSidebar",
  leafS "/docs/concepts/lenses" "d44" "tutorialSidebar",
  leafS "/docs/concepts/optics" "635" "tutorialSidebar",
  leafS "/docs/concepts/refractions" "319" "tutorialSidebar",
  leafR "/docs/concepts/state-management" "781",
  leafS "/docs/contributing" "069" "tutorialSidebar",
  leafS "/docs/getting-started" "2a1" "tutorialSidebar",
  leafR "/docs/installation" "176",
  leafS "/docs/intro" "61d" "tutorialSidebar",
  leafS "/docs/tutorials/animation-basics" "270" "tutorialSidebar",
  leafS "/docs/tutorials/counter-app" "680" "tutorialSidebar",
  leafR "/docs/tutorials/getting-started" "1ff",
  leafS "/docs/tutorials/global-theme" "a07" "tutorialSidebar",
  leafS "/docs/tutorials/todo-list" "447" "tutorialSidebar"]

/-- The route table exported by `refract-docs/.docusaurus/routes.js`,
as an ordinary list of records in source order. -/
def routesMainL : List RouteNode := [
  leafR "/blog" "e35",
  leafR "/blog/archive" "182",
  leafR "/blog/introducing-refract" "261",
  leafR "/blog/performance-optimization-guide" "360",
  leafR "/blog/tags" "287",
  leafR "/blog/tags/advanced" "e70",
  leafR "/blog/tags/announcement" "3d6",
  leafR "/blog/tags/best-practices" "699",
  leafR "/blog/tags/javascript" "fcb",
  leafR "/blog/tags/optimization" "09c",
  leafR "/blog/tags/performance" "93a",
  leafR "/blog/tags/reactive" "390",
  leafR "/blog/tags/ui" "1e9",
  leafR "/search" "822",
  branchR "/docs" "008" [
    branchR "/docs" "792" [
      branchR "/docs" "2a7" mainDocsLeaves]],
  leafR "/" "2e1",
  wildcardR]

/-- The route table of `refract-docs/.docusaurus/routes.js`. -/
def routesMain : RouteList := RouteList.ofList routesMainL

/-- Innermost children of the `/docs` wrapper chain of the unnamed
`routes.js` variant (`src/unnamed/part_000`, lines 147-377), in source
order. -/
def altDocsLeaves : List RouteNode := [
  leafR "/docs/advanced/performance" "cef",
  leafR "/docs/advanced/testing" "7ad",
  leafR "/docs/api" "a3f",
  leafS "/docs/api/createApp" "090" "tutorialSidebar",
  leafS "/docs/api/createComponent" "e73" "tutorialSidebar",
  leafS "/docs/api/createOptic" "ae2" "tutorialSidebar",
  leafS "/docs/api/overview" "211" "tutorialSidebar",
  leafS "/docs/api/useEffect" "a6d" "tutorialSidebar",
  leafS "/docs/api/useFlash" "3ce" "tutorialSidebar",
  leafS "/docs/api/useLens" "5c2" "tutorialSidebar",
  leafS "/docs/api/useOptic" "6b0" "tutorialSidebar",
  leafS "/docs/api/useRefraction" "a76" "tutorialSidebar",
  leafS "/docs/concepts/components" "749" "tutorialSidebar",
  leafS "/docs/concepts/effects" "4d4" "tutorialSidebar",
  leafS "/docs/concepts/lenses" "d44" "tutorialSidebar",
  leafS "/docs/concepts/optics" "635" "tutorialSidebar",
  leafS "/docs/concepts/refractions" "319" "tutorialSidebar",
  leafR "/docs/concepts/state-management" "781",
  leafS "/docs/contributing" "069" "tutorialSidebar",
  leafR "/docs/developers/api-overview" "dd6",
  leafR "/docs/developers/authentication" "fe3",
  leafR "/docs/developers/endpoints" "e85",
  leafR "/docs/developers/integration-guide" "a75",
  leafR "/docs/developers/webhooks" "7fc",
  leafR "/docs/faqs/general" "10c",
  leafR "/docs/faqs/troubleshooting" "a6f",
  leafR "/docs/features/api-access" "8d9",
  leafR "/docs/features/dashboard" "8d2",
  leafR "/docs/features/realtime-feedback" "d66",
  leafS "/docs/getting-started" "2a1" "tutorialSidebar",
  leafR "/docs/getting-started/installation" "2f7",
  leafR "/docs/getting-started/quick-tour" "365",
  leafR "/docs/installation" "176",
  leafS "/docs/intro" "61d" "tutorialSidebar",
  leafR "/docs/Introduction/faq" "864",
  leafR "/docs/Introduction/getting-started" "166",
  leafR "/docs/Introduction/overview" "213",
  leafS "/docs/tutorials/animation-basics" "270" "tutorialSidebar",
  leafS "/docs/tutorials/counter-app" "680" "tutorialSidebar",
  leafR "/docs/tutorials/getting-started" "1ff",
  leafS "/docs/tutorials/global-theme" "a07" "tutorialSidebar",
  leafS "/docs/tutorials/todo-list" "447" "tutorialSidebar"]

/-- The route table exported by the unnamed `routes.js` variant
(`src/unnamed/part_000`), as an ordinary list of records in source
order. -/
def routesAltL : List RouteNode := [
  leafR "/blog" "04d",
  leafR "/blog/archive" "182",
  leafR "/blog/authors" "0b7",
  leafR "/blog/authors/all-sebastien-lorber-articles" "4a1",
  leafR "/blog/authors/yangshun" "a68",
  leafR "/blog/first-blog-post" "89a",
  leafR "/blog/introducing-refract" "261",
  leafR "/blog/long-blog-post" "9ad",
  leafR "/blog/mdx-blog-post" "e9f",
  leafR "/blog/performance-optimization-guide" "360",
  leafR "/blog/tags" "287",
  leafR "/blog/tags/advanced" "e70",
  leafR "/blog/tags/announcement" "3d6",
  leafR "/blog/tags/best-practices" "699",
  leafR "/blog/tags/docusaurus" "704",
  leafR "/blog/tags/facebook" "858",
  leafR "/blog/tags/hello" "299",
  leafR "/blog/tags/hola" "00d",
  leafR "/blog/tags/javascript" "fcb",
  leafR "/blog/tags/optimization" "09c",
  leafR "/blog/tags/performance" "93a",
  leafR "/blog/tags/reactive" "390",
  leafR "/blog/tags/ui" "1e9",
  leafR "/blog/welcome" "d2b",
  leafR "/markdown-page" "3d7",
  leafR "/search" "822",
  branchR "/docs" "a56" [
    branchR "/docs" "927" [
      branchR "/docs" "2a1" altDocsLeaves]],
  leafR "/" "2e1",
  wildcardR]

/-- The route table of the unnamed `routes.js` variant. -/
def routesAlt : RouteList := RouteList.ofList routesAltL

/-- Character-list prefix test (used to express the segment-boundary
prefix rule of the matching policy over concrete path strings). -/
def charsStartWith : List Char → List Char → Bool
  | [], _ => true
  | _ :: _, [] => false
  | a :: as, b :: bs => a == b && charsStartWith as bs

/-- Modelled from the spec: the route resolver itself is part of the
static-site generator, outside this repository; section 4.1 of the
design document specifies its matching policy.  A non-exact (prefix)
node matches any path sharing its prefix up to the next path segment
boundary: the paths are equal, or the candidate continues the node path
with a `/` segment separator. -/
def segMatch (pre p : String) : Bool :=
  pre == p || charsStartWith (pre.data ++ ['/']) p.data

/-- Modelled from the spec (section 4.1): an exact node matches only the
identical path, a non-exact node matches by segment-boundary prefix, and
the wildcard node `path: '*'` matches any path. -/
def nodeMatches (p : String) (r : RouteNode) : Bool :=
  if r.path == "*" then true
  else if r.exactFlag then r.path == p
  else segMatch r.path p

mutual

/-- Modelled from the spec (section 4.1): a matching intermediate node
descends recursively into its `routes` children to find the deepest
matching leaf (deeper matches win); a node whose subtree yields no
match yields no match itself; a matching leaf is returned. -/
def resolveNode (p : String) : RouteNode → Option RouteNode
  | .mk pa h ex sb hr cs =>
    if nodeMatches p (.mk pa h ex sb hr cs) then
      if hr then resolveRoutes p cs
      else some (.mk pa h ex sb hr cs)
    else none

/-- Modelled from the spec (section 4.1): resolution scans the record
list in order and takes the first record whose subtree resolves;
`none` means no record matched. -/
def resolveRoutes (p : String) : RouteList → Option RouteNode
  | .nil => none
  | .cons r rest =>
    match resolveNode p r with
    | some l => some l
    | none => resolveRoutes p rest

end

/-- Resolve a request path against a route table. -/
def resolve (table : RouteList) (p : String) : Option RouteNode :=
  resolveRoutes p table

mutual

/-- All records of a subtree that carry `exact: true`, in source order. -/
def RouteNode.exactLeaves : RouteNode → List RouteNode
  | .mk pa h ex sb hr cs =>
    (if ex then [RouteNode.mk pa h ex sb hr cs] else []) ++ RouteList.exactLeaves cs

def RouteList.exactLeaves : RouteList → List RouteNode
  | .nil => []
  | .cons r rest => r.exactLeaves ++ RouteList.exactLeaves rest

end

mutual

/-- All records of a subtree, the record itself included, in source order. -/
def RouteNode.allNodes : RouteNode → List RouteNode
  | .mk pa h ex sb hr cs =>
    RouteNode.mk pa h ex sb hr cs :: RouteList.allNodes cs

def RouteList.allNodes : RouteList → List RouteNode
  | .nil => []
  | .cons r rest => r.allNodes ++ RouteList.allNodes rest

end

deriving instance DecidableEq for RouteNode
deriving instance DecidableEq for RouteList

/-- Does a record carry the leaf/intermediate shape stated in the data
model section: leaves (`routes` key absent) carry `exact: true`,
intermediate records (`routes` key present) carry no `exact` flag. -/
def shapeOk (r : RouteNode) : Bool :=
  if r.hasRoutes then !r.exactFlag else r.exactFlag

/-- Plain string prefix test. -/
def strStartsWith (pre p : String) : Bool := charsStartWith pre.data p.data

/-- Do all records of the list have `pre` as a path prefix? -/
def RouteList.allPathsPrefixed (pre : String) : RouteList → Bool
  | .nil => true
  | .cons r rest => strStartsWith pre r.path && RouteList.allPathsPrefixed pre rest

mutual

/-- Every record with a `routes` array only has children whose paths
extend its own path, recursively. -/
def RouteNode.prefixNested : RouteNode → Bool
  | .mk pa _ _ _ _ cs =>
    RouteList.allPathsPrefixed pa cs && RouteList.prefixNested cs

def RouteList.prefixNested : RouteList → Bool
  | .nil => true
  | .cons r rest => r.prefixNested && RouteList.prefixNested rest

end

/-! ### Sidebar model (`refract-docs/sidebars.js`)

The `tutorialSidebar` value is an ordered list mixing bare content
identifiers (`doc`) and category objects
`{ type: 'category', label, items }` (`category`). -/

mutual

inductive SidebarItem : Type where
  | doc (id : String)
  | category (label : String) (items : SidebarItems)

inductive SidebarItems : Type where
  | nil : SidebarItems
  | cons (head : SidebarItem) (tail : SidebarItems) : SidebarItems

end

deriving instance DecidableEq for SidebarItem
deriving instance DecidableEq for SidebarItems

def SidebarItems.ofList : List SidebarItem → SidebarItems
  | [] => .nil
  | i :: is => .cons i (SidebarItems.ofList is)

def SidebarItems.isNil : SidebarItems → Bool
  | .nil => true
  | .cons _ _ => false

/-- The items of the `API Reference` category of
`refract-docs/sidebars.js` (lines 34-43), in source order. -/
def apiReferenceItems : SidebarItems := SidebarItems.ofList [
  .doc "api/overview",
  .doc "api/createApp",
  .doc "api/createComponent",
  .doc "api/useRefraction",
  .doc "api/useEffect",
  .doc "api/useOptic",
  .doc "api/useFlash",
  .doc "api/useLens"]

/-- The `tutorialSidebar` tree of `refract-docs/sidebars.js`, in source
order. -/
def tutorialSidebar : SidebarItems := SidebarItems.ofList [
  .doc "intro",
  .doc "getting-started",
  .category "Core Concepts" (SidebarItems.ofList [
    .doc "concepts/components",
    .doc "concepts/refractions",
    .doc "concepts/lenses",
    .doc "concepts/optics",
    .doc "concepts/effects"]),
  .category "API Reference" apiReferenceItems,
  .category "Tutorials" (SidebarItems.ofList [
    .doc "tutorials/counter-app",
    .doc "tutorials/todo-list",
    .doc "tutorials/global-theme",
    .doc "tutorials/animation-basics"]),
  .doc "contributing"]

mutual

/-- All leaf content identifiers of a subtree, in display order. -/
def SidebarItem.leafIds : SidebarItem → List String
  | .doc i => [i]
  | .category _ its => SidebarItems.leafIds its

def SidebarItems.leafIds : SidebarItems → List String
  | .nil => []
  | .cons it rest => it.leafIds ++ SidebarItems.leafIds rest

end

mutual

/-- All category nodes of a subtree as label/items pairs. -/
def SidebarItem.categories : SidebarItem → List (String × SidebarItems)
  | .doc _ => []
  | .category lab its => (lab, its) :: SidebarItems.categories its

def SidebarItems.categories : SidebarItems → List (String × SidebarItems)
  | .nil => []
  | .cons it rest => it.categories ++ SidebarItems.categories rest

end

/-- The bare content identifiers appearing directly (not inside a
nested category) in an items list. -/
def SidebarItems.directIds : SidebarItems → List String
  | .nil => []
  | .cons (.doc d) rest => d :: SidebarItems.directIds rest
  | .cons (.category _ _) rest => SidebarItems.directIds rest

mutual

/-- Modelled from the spec: the sidebar tree walker itself is part of
the static-site generator, outside this repository; section 4.2 of the
design document specifies its contract.  Walking from a leaf content
identifier yields the root-to-leaf list of ancestor category labels
together with the leaf's immediate siblings (the other content
identifiers of the items list that contains the leaf directly), for
prev/next navigation.  This pair of functions scans category children. -/
def SidebarItem.walkC (id : String) : SidebarItem → Option (List String × List String)
  | .doc _ => none
  | .category lab its =>
    if (SidebarItems.directIds its).contains id then
      some ([lab], (SidebarItems.directIds its).erase id)
    else (SidebarItems.walkC id its).map (fun r => (lab :: r.1, r.2))

def SidebarItems.walkC (id : String) : SidebarItems → Option (List String × List String)
  | .nil => none
  | .cons it rest =>
    match SidebarItem.walkC id it with
    | some r => some r
    | none => SidebarItems.walkC id rest

end

/-- Modelled from the spec (section 4.2): locate a leaf content
identifier in a sidebar tree, returning the ancestor category label
chain and the leaf's immediate siblings. -/
def sidebarWalk (id : String) (l : SidebarItems) : Option (List String × List String) :=
  if (SidebarItems.directIds l).contains id then
    some ([], (SidebarItems.directIds l).erase id)
  else SidebarItems.walkC id l

/-! ### Site configuration variants

`src/unnamed/part_001` is the main `docusaurus.config.js`
(`url: 'https://refract-docs.netlify.app'`); the tail of
`src/unnamed/part_011` is the alternate variant (`url` on vercel).
Only the scalar option keys relevant to the stated properties are
embedded; `trailingSlash` is optional because only the alternate
variant sets it. -/

structure SiteConfig where
  title : String
  tagline : String
  favicon : String
  url : String
  baseUrl : String
  organizationName : String
  projectName : String
  onBrokenLinks : String
  onBrokenMarkdownLinks : String
  trailingSlash : Option Bool
  defaultLocale : String
  locales : List String

def mainConfig : SiteConfig where
  title := "Refract"
  tagline := "A reactive, composable JavaScript framework for building modern UIs"
  favicon := "img/favicon.ico"
  url := "https://refract-docs.netlify.app"
  baseUrl := "/"
  organizationName := "refract-js"
  projectName := "refract"
  onBrokenLinks := "throw"
  onBrokenMarkdownLinks := "warn"
  trailingSlash := none
  defaultLocale := "en"
  locales := ["en"]

def altConfig : SiteConfig where
  title := "Refract"
  tagline := "A reactive, composable JavaScript framework for building modern UIs"
  favicon := "img/favicon.ico"
  url := "https://refract-documentation-i7fkgvid5-samuel-bensos-projects.vercel.app"
  baseUrl := "/"
  organizationName := "refract-js"
  projectName := "refract"
  onBrokenLinks := "warn"
  onBrokenMarkdownLinks := "warn"
  trailingSlash := some false
  defaultLocale := "en"
  locales := ["en"]

/-- The front-matter `slug` declared by the blog content file
`src/unnamed/part_004` (`slug: introducing-refract`), which lives under
the blog content root. -/
def introducingRefractSlug : String := "introducing-refract"


/-! ### Helper lemmas -/

/-- Pointwise consequence of an equality of mapped lists. -/
theorem map_eq_map_mem {α β : Type} (f g : α → β) (l : List α)
    (h : l.map f = l.map g) : ∀ a ∈ l, f a = g a := by
  induction l with
  | nil => intro a ha; exact absurd ha (List.not_mem_nil a)
  | cons x xs ih =>
    simp only [List.map_cons, List.cons.injEq] at h
    intro a ha
    rcases List.mem_cons.mp ha with rfl | hx
    · exact h.1
    · exact ih h.2 a hx

/-- The wildcard record resolves any path to itself. -/
theorem resolveNode_wildcard (p : String) : resolveNode p wildcardR = some wildcardR := rfl

/-- A record list ending in the wildcard record resolves every path. -/
theorem resolveRoutes_wild_total (p : String) :
    ∀ rs : RouteList, (resolveRoutes p (rs.append (.cons wildcardR .nil))).isSome = true
  | .nil => rfl
  | .cons r rest => by
    have ih := resolveRoutes_wild_total p rest
    show (resolveRoutes p (.cons r (rest.append (.cons wildcardR .nil)))).isSome = true
    simp only [resolveRoutes]
    cases hr : resolveNode p r with
    | some l => rfl
    | none => simpa using ih

/-! ### Claim theorems -/

/-- C1: in both route tables, resolving the path of any record marked
`exact: true` under the section 4.1 matching policy returns exactly that
record (and, the result being a single record, no other). -/
theorem exact_match_determinism :
    (∀ r ∈ RouteList.exactLeaves routesMain, resolve routesMain r.path = some r) ∧
    (∀ r ∈ RouteList.exactLeaves routesAlt, resolve routesAlt r.path = some r) :=
  ⟨map_eq_map_mem (fun (r : RouteNode) => resolve routesMain r.path) some
      (RouteList.exactLeaves routesMain) rfl,
   map_eq_map_mem (fun (r : RouteNode) => resolve routesAlt r.path) some
      (RouteList.exactLeaves routesAlt) rfl⟩

/-- Witness for C1 at the record with path `/docs/intro`. -/
theorem exact_match_determinism_witness :
    resolve routesMain (leafS "/docs/intro" "61d" "tutorialSidebar").path =
      some (leafS "/docs/intro" "61d" "tutorialSidebar") :=
  exact_match_determinism.1 (leafS "/docs/intro" "61d" "tutorialSidebar") (by decide)

/-- C2: route resolution over each route table is total — for every
input path a result is produced, because any path not matched by a
non-wildcard record falls through to the final record with path `*`. -/
theorem wildcard_totality (p : String) :
    (resolve routesMain p).isSome = true ∧ (resolve routesAlt p).isSome = true := by
  refine ⟨?_, ?_⟩
  · have h := resolveRoutes_wild_total p (RouteList.ofList routesMainL.dropLast)
    have e : (RouteList.ofList routesMainL.dropLast).append
        (.cons wildcardR .nil) = routesMain := rfl
    rw [e] at h
    exact h
  · have h := resolveRoutes_wild_total p (RouteList.ofList routesAltL.dropLast)
    have e : (RouteList.ofList routesAltL.dropLast).append
        (.cons wildcardR .nil) = routesAlt := rfl
    rw [e] at h
    exact h

/-- C3: within each route table, no two distinct records carrying
`exact: true` share a `path` value. -/
theorem path_uniqueness :
    ((RouteList.exactLeaves routesMain).map RouteNode.path).Nodup ∧
    ((RouteList.exactLeaves routesAlt).map RouteNode.path).Nodup := by
  constructor <;> decide

/-- C4 counterexample: the claim that every record of the route tree,
the top-level wildcard record with path `*` included, has either
children or an `exact: true` flag is refuted by that very wildcard
record, which carries neither. -/
theorem route_shape_counterexample :
    ¬ (∀ r ∈ RouteList.allNodes routesMain, shapeOk r = true) := fun h =>
  absurd (h wildcardR (by decide)) (by decide)

/-- C4 amended: every record of both route tables other than the
wildcard record satisfies the shape invariant (no `routes` children
implies `exact: true`, a `routes` array implies no `exact` flag), and
the wildcard record with path `*` carries neither an `exact` flag nor a
`routes` array. -/
theorem route_shape_amended :
    (((RouteList.allNodes routesMain).all fun r =>
        if r.path == "*" then !r.hasRoutes && !r.exactFlag else shapeOk r) = true) ∧
    (((RouteList.allNodes routesAlt).all fun r =>
        if r.path == "*" then !r.hasRoutes && !r.exactFlag else shapeOk r) = true) :=
  ⟨rfl, rfl⟩

/-- C5: the blog content file declaring `slug: introducing-refract`
round-trips into both generated route tables as the record
`{ path: '/blog/introducing-refract', exact: true }`. -/
theorem slug_roundtrip :
    leafR "/blog/introducing-refract" "261" ∈ routesMainL ∧
    leafR "/blog/introducing-refract" "261" ∈ routesAltL ∧
    (leafR "/blog/introducing-refract" "261").path = "/blog/" ++ introducingRefractSlug ∧
    (leafR "/blog/introducing-refract" "261").exactFlag = true :=
  ⟨by decide, by decide, rfl, rfl⟩

/-- C6: every category node of the `tutorialSidebar` tree has a
non-empty items list, and no leaf content identifier occurs twice
within the same subtree. -/
theorem sidebar_wellformed :
    ∀ c ∈ SidebarItems.categories tutorialSidebar,
      c.2.isNil = false ∧ (SidebarItems.leafIds c.2).Nodup := by decide

/-- Witness for C6 at the API Reference category. -/
theorem sidebar_wellformed_witness :
    apiReferenceItems.isNil = false ∧ (SidebarItems.leafIds apiReferenceItems).Nodup :=
  sidebar_wellformed ("API Reference", apiReferenceItems) (by decide)

/-- C7: walking the `tutorialSidebar` tree from leaf `api/createApp`
yields the ancestor chain consisting of the single category label
`API Reference`, with `api/overview` among the leaf's immediate
siblings. -/
theorem sidebar_walker_createApp :
    ∃ siblings,
      sidebarWalk "api/createApp" tutorialSidebar = some (["API Reference"], siblings) ∧
      "api/overview" ∈ siblings :=
  ⟨["api/overview", "api/createComponent", "api/useRefraction", "api/useEffect",
    "api/useOptic", "api/useFlash", "api/useLens"], rfl, by decide⟩

/-- C8: the main site configuration fails the build on broken links
(`onBrokenLinks: 'throw'`), while the alternate configuration variant
only warns (`onBrokenLinks: 'warn'`). -/
theorem broken_links_policy :
    mainConfig.onBrokenLinks = "throw" ∧ altConfig.onBrokenLinks = "warn" :=
  ⟨rfl, rfl⟩

/-- C9: in both route tables, every record carrying a `routes` array
only has children whose paths extend the parent's path, recursively
down the tree. -/
theorem prefix_nesting :
    RouteList.prefixNested routesMain = true ∧ RouteList.prefixNested routesAlt = true :=
  ⟨rfl, rfl⟩

/-- C10: in both route tables the wildcard record with path `*` is the
last element of the exported top-level list, and no other top-level
record has path `*`, so every non-wildcard record precedes it in match
order. -/
theorem wildcard_is_last :
    routesMainL.getLast? = some wildcardR ∧
    (routesMainL.dropLast.all fun r => r.path != "*") = true ∧
    routesAltL.getLast? = some wildcardR ∧
    (routesAltL.dropLast.all fun r => r.path != "*") = true :=
  ⟨rfl, rfl, rfl, rfl⟩
